import Mathlib

/-!
Verification development for the databutter performance engine
(`PerformanceConstraints`, `PerformanceMonitor`, `GPUOnlyAnimationBuilder`).

The JavaScript source is shallowly embedded: numeric values are modelled as
rationals (`ℚ`), FPS samples as integers (`ℤ`, since every stored fps value is
a `Math.round` result), objects as Lean structures, possibly-absent object
fields as `Option`, and the monitor's mutable state as explicit state passing.
-/

/-- Performance tier, `this.performanceLevel` in the source
(one of the strings "low" / "medium" / "high"). -/
inductive Level where
  | low
  | medium
  | high
deriving DecidableEq, Repr

/-- `PerformanceConstraints.readonly.MAX_CONCURRENT_ANIMATIONS`. -/
def MAX_CONCURRENT_ANIMATIONS : Nat := 8

/-- `PerformanceConstraints.readonly.MIN_ANIMATION_DURATION` (50ms). -/
def MIN_ANIMATION_DURATION : ℚ := 1/20

/-- `PerformanceConstraints.readonly.MAX_SEGMENTS_PER_YEAR`. -/
def MAX_SEGMENTS_PER_YEAR : ℚ := 4

/-- `PerformanceConstraints.readonly.MAX_TIMING_VARIATION`. -/
def MAX_TIMING_VARIATION : ℚ := 1/2

/-- `PerformanceConstraints.readonly.GPU_ONLY_PROPERTIES`. -/
def GPU_ONLY_PROPERTIES : List String :=
  ["opacity", "transform", "x", "y", "rotation", "scale",
   "scaleX", "scaleY", "rotationX", "rotationY", "rotationZ"]

/-- JavaScript `x || d` on a possibly-absent numeric field: the default `d` is
substituted when the field is `undefined` (absent) or falsy (`0`). -/
def jsOr (x : Option ℚ) (d : ℚ) : ℚ :=
  match x with
  | none => d
  | some v => if v = 0 then d else v

/-- The `timing` parameter group as consumed by
`PerformanceConstraints.validateParameters` (fields may be absent). -/
structure TimingIn where
  maxSegments : Option ℚ
  organicVariation : Option ℚ
deriving DecidableEq, Repr

/-- The `secondaryAction` parameter group as consumed by `validateParameters`. -/
structure SecondaryIn where
  jiggleIntensity : Option ℚ
  maxJiggles : Option ℚ
deriving DecidableEq, Repr

/-- The `squashAndStretch` parameter group as consumed by `validateParameters`. -/
structure SquashIn where
  squashAmount : Option ℚ
  stretchAmount : Option ℚ
deriving DecidableEq, Repr

/-- A parameter record passed to `validateParameters`; each recognized group
may be absent (the source guards each group with `if (params.group)`). -/
structure ParamsIn where
  timing : Option TimingIn
  secondaryAction : Option SecondaryIn
  squashAndStretch : Option SquashIn
deriving DecidableEq, Repr

/-- The `if (params.timing)` block of `validateParameters`. -/
def validateTimingGroup (t : TimingIn) : TimingIn :=
  { maxSegments := some (min (jsOr t.maxSegments 4) MAX_SEGMENTS_PER_YEAR)
    organicVariation := some (min (jsOr t.organicVariation (3/10)) MAX_TIMING_VARIATION) }

/-- The `if (params.secondaryAction)` block of `validateParameters`. -/
def validateSecondaryGroup (s : SecondaryIn) : SecondaryIn :=
  { jiggleIntensity := some (min (jsOr s.jiggleIntensity 2) 3)
    maxJiggles := some (min (jsOr s.maxJiggles 3) 5) }

/-- The `if (params.squashAndStretch)` block of `validateParameters`. -/
def validateSquashGroup (q : SquashIn) : SquashIn :=
  { squashAmount := some (max (jsOr q.squashAmount (9/10)) (7/10))
    stretchAmount := some (min (jsOr q.stretchAmount (11/10)) (13/10)) }

/-- `PerformanceConstraints.validateParameters`.  Each present group's fields
are clamped with `Math.min` / `Math.max` after JavaScript `||`-defaulting. -/
def validateParameters (params : ParamsIn) : ParamsIn :=
  { timing := params.timing.map validateTimingGroup
    secondaryAction := params.secondaryAction.map validateSecondaryGroup
    squashAndStretch := params.squashAndStretch.map validateSquashGroup }

/-- The parameter-validation function as the claim words it: the formulas
`min(requested ?? default, cap)` / `max(requested ?? default, floor)` where
`??` substitutes the default ONLY when the field is absent (nullish
coalescing), never when it is present with value `0`.  Stated for comparison
against `validateParameters`, which is translated from the source. -/
def validateParametersClaimC2 (params : ParamsIn) : ParamsIn :=
  { timing :=
      params.timing.map fun t =>
        { maxSegments := some (min (t.maxSegments.getD 4) 4)
          organicVariation := some (min (t.organicVariation.getD (3/10)) (1/2)) }
    secondaryAction :=
      params.secondaryAction.map fun s =>
        { jiggleIntensity := some (min (s.jiggleIntensity.getD 2) 3)
          maxJiggles := some (min (s.maxJiggles.getD 3) 5) }
    squashAndStretch :=
      params.squashAndStretch.map fun q =>
        { squashAmount := some (max (q.squashAmount.getD (9/10)) (7/10))
          stretchAmount := some (min (q.stretchAmount.getD (11/10)) (13/10)) } }

/-- A primitive JavaScript value (number / string / boolean) appearing in an
animation property map. -/
inductive Prim where
  | num : ℚ → Prim
  | str : String → Prim
  | boolean : Bool → Prim
deriving DecidableEq, Repr

/-- A value in an animation property map: either a primitive or a one-level
object (as used for the `attr` attribute bag). -/
inductive PropVal where
  | prim : Prim → PropVal
  | obj : List (String × Prim) → PropVal
deriving DecidableEq, Repr

/-- `Object.keys(v)` for the modelled values: an object's field names; a
string's index keys; `[]` for other primitives. -/
def jsKeys (v : PropVal) : List String :=
  match v with
  | .obj fields => fields.map Prod.fst
  | .prim (.str s) => (List.range s.length).map toString
  | .prim _ => []

/-- `PerformanceConstraints.isGPUSafeAttribute`: every key of the attribute
bag must be in the safe-attribute list. -/
def isGPUSafeAttribute (attrProps : PropVal) : Bool :=
  let safeAttrs : List String := ["width", "height", "d", "transform", "opacity"]
  (jsKeys attrProps).all fun attr => safeAttrs.contains attr

/-- The if/else-if chain of `filterGPUProperties` deciding whether key `k`
with value `v` is copied into the `safe` result object. -/
def isAllowedProperty (k : String) (v : PropVal) : Bool :=
  GPU_ONLY_PROPERTIES.contains k
    || (k == "attr" && isGPUSafeAttribute v)
    || k == "duration" || k == "ease" || k == "delay"

/-- `PerformanceConstraints.filterGPUProperties`: keep exactly the entries the
if/else-if chain copies into `safe`; every other key is blocked (warned about
and omitted, never thrown). -/
def filterGPUProperties (properties : List (String × PropVal)) :
    List (String × PropVal) :=
  properties.filter fun kv => isAllowedProperty kv.1 kv.2

/-- The engine's `animationParams.timing` group (`ButteryAnimationEngine`
constructor).  `maxSegments` and `organicVariation` are not present initially;
assignment in `enforceConstraints` creates them, so they are `Option`. -/
structure EngineTiming where
  baseDuration : ℚ
  staggerDelay : ℚ
  maxSegments : Option ℚ
  organicVariation : Option ℚ
deriving DecidableEq, Repr

/-- The engine's `animationParams.squashAndStretch` group. -/
structure EngineSquash where
  enabled : Bool
  squashAmount : ℚ
  stretchAmount : ℚ
  squashDuration : ℚ
deriving DecidableEq, Repr

/-- The engine's `animationParams.anticipation` group. -/
structure EngineAnticipation where
  enabled : Bool
  pullbackAmount : ℚ
  pauseDuration : ℚ
deriving DecidableEq, Repr

/-- The engine's `animationParams.followThrough` group. -/
structure EngineFollowThrough where
  enabled : Bool
  overshootAmount : ℚ
  settleDuration : ℚ
deriving DecidableEq, Repr

/-- The engine's `animationParams.secondaryAction` group. -/
structure EngineSecondary where
  enabled : Bool
  jiggleIntensity : ℚ
  maxJiggles : ℚ
deriving DecidableEq, Repr

/-- The mutable `animationEngine.animationParams` object the enforcer reaches
into (`window.animationEngine`). -/
structure EngineParams where
  timing : EngineTiming
  squashAndStretch : EngineSquash
  anticipation : EngineAnticipation
  followThrough : EngineFollowThrough
  secondaryAction : EngineSecondary
deriving DecidableEq, Repr

/-- The default `animationParams` from the `ButteryAnimationEngine`
constructor. -/
def defaultAnimationParams : EngineParams :=
  { timing := { baseDuration := 1500, staggerDelay := 300,
                maxSegments := none, organicVariation := none }
    squashAndStretch := { enabled := true, squashAmount := 9/10,
                          stretchAmount := 11/10, squashDuration := 3/20 }
    anticipation := { enabled := true, pullbackAmount := 19/20,
                      pauseDuration := 1/20 }
    followThrough := { enabled := true, overshootAmount := 21/20,
                       settleDuration := 1/5 }
    secondaryAction := { enabled := true, jiggleIntensity := 1, maxJiggles := 3 } }

/-- The four assignments in the Low branch of
`PerformanceMonitor.enforceConstraints`: force `maxSegments = 2`,
`jiggleIntensity = 0`, `organicVariation = 0.1`,
`squashAndStretch.enabled = false`.  No other field is touched. -/
def applyLowClamp (e : EngineParams) : EngineParams :=
  { e with
    timing := { e.timing with maxSegments := some 2, organicVariation := some (1/10) }
    secondaryAction := { e.secondaryAction with jiggleIntensity := 0 }
    squashAndStretch := { e.squashAndStretch with enabled := false } }

/-- `PerformanceMonitor.enforceConstraints`: clamp the registered engine's
parameters only when the (new) performance level is `low`, and only when an
engine is registered (`window.animationEngine` truthy). -/
def enforceConstraints (level : Level) (engine : Option EngineParams) :
    Option EngineParams :=
  if level = Level.low then
    match engine with
    | some e => some (applyLowClamp e)
    | none => none
  else engine

/-- The threshold table in `PerformanceMonitor.adjustPerformanceLevel`:
`fps < 45` low, `45 ≤ fps < 55` medium, `fps ≥ 55` high.  FPS values are
integers because every stored fps is a `Math.round` result. -/
def classifyFps (fps : ℤ) : Level :=
  if fps < 45 then Level.low
  else if fps < 55 then Level.medium
  else Level.high

/-- The observable state of `PerformanceMonitor` relevant to tier
classification and constraint enforcement: the last fps sample, the current
performance level, and the registered animation engine's parameter object. -/
structure MonitorState where
  fps : ℤ
  performanceLevel : Level
  engine : Option EngineParams
deriving Repr

/-- `PerformanceMonitor.adjustPerformanceLevel`: recompute the performance
level from `fps` and, exactly when the level changed, run
`enforceConstraints`.  The returned Bool records whether `enforceConstraints`
was invoked. -/
def adjustPerformanceLevel (st : MonitorState) : MonitorState × Bool :=
  let newLevel := classifyFps st.fps
  if st.performanceLevel = newLevel then
    ({ st with performanceLevel := newLevel }, false)
  else
    ({ st with performanceLevel := newLevel,
               engine := enforceConstraints newLevel st.engine }, true)

/-- What one window close reports for the test trace: the tier after the
sample, whether `enforceConstraints` was invoked, and whether the Low clamp
body actually ran (level `low` with a registered engine). -/
structure TickInfo where
  level : Level
  enforced : Bool
  clamped : Bool
deriving DecidableEq, Repr

/-- One sampling-window close of the monitor loop at a given fps sample:
store the sample (`this.fps = Math.round(...)`) then run
`adjustPerformanceLevel`. -/
def monitorStep (st : MonitorState) (sample : ℤ) : MonitorState × TickInfo :=
  let st1 := { st with fps := sample }
  let r := adjustPerformanceLevel st1
  (r.1, { level := r.1.performanceLevel
          enforced := r.2
          clamped := r.2 && decide (r.1.performanceLevel = Level.low)
                         && st1.engine.isSome })

/-- Feed a sequence of fps samples (one per window) through the monitor,
collecting each window's `TickInfo`. -/
def runTrace (st : MonitorState) : List ℤ → List TickInfo
  | [] => []
  | s :: rest =>
    let r := monitorStep st s
    r.2 :: runTrace r.1 rest

/-- Feed a sequence of fps samples through the monitor, returning the final
state. -/
def runMonitor (st : MonitorState) (samples : List ℤ) : MonitorState :=
  samples.foldl (fun s sample => (monitorStep s sample).1) st

/-- The monitor state as the page initializes it: `fps = 60`,
`performanceLevel = 'high'`, with the animation engine registered. -/
def initialMonitorState : MonitorState :=
  { fps := 60, performanceLevel := Level.high, engine := some defaultAnimationParams }

/-- The engine parameters carry exactly the values the Low clamp writes. -/
def isClamped (e : EngineParams) : Prop :=
  e.timing.maxSegments = some 2
    ∧ e.secondaryAction.jiggleIntensity = 0
    ∧ e.timing.organicVariation = some (1/10)
    ∧ e.squashAndStretch.enabled = false

instance (e : EngineParams) : Decidable (isClamped e) := by
  unfold isClamped; infer_instance

/-- The per-tier constraint bundle of `PerformanceMonitor.getConstraints`. -/
structure TierConstraintBundle where
  maxSegments : ℚ
  maxJiggle : ℚ
  maxVariation : ℚ
  allowSquash : Bool
  allowSecondaryAction : Bool
deriving DecidableEq, Repr

/-- `PerformanceMonitor.getConstraints`, the fixed per-tier bundle table. -/
def getConstraints : Level → TierConstraintBundle
  | Level.high =>
    { maxSegments := 4, maxJiggle := 2, maxVariation := 3/10,
      allowSquash := true, allowSecondaryAction := true }
  | Level.medium =>
    { maxSegments := 3, maxJiggle := 1, maxVariation := 1/5,
      allowSquash := true, allowSecondaryAction := true }
  | Level.low =>
    { maxSegments := 2, maxJiggle := 0, maxVariation := 1/10,
      allowSquash := false, allowSecondaryAction := false }

/-- A subscriber registered through `onPerformanceChange`: receives
`(fps, tier, bundle)` and may throw (modelled as `Except`). -/
def Subscriber : Type :=
  ℤ → Level → TierConstraintBundle → Except String Unit

/-- What the monitor observably does with one subscriber during
`notifyCallbacks`: either the call returned, or it threw and the error was
caught and logged. -/
inductive NotifyOutcome where
  | returned
  | errorLogged (msg : String)
deriving DecidableEq, Repr

/-- The try/catch around one subscriber call inside `notifyCallbacks`. -/
def runSubscriber (cb : Subscriber) (fps : ℤ) (level : Level)
    (bundle : TierConstraintBundle) : NotifyOutcome :=
  match cb fps level bundle with
  | Except.ok _ => NotifyOutcome.returned
  | Except.error e => NotifyOutcome.errorLogged e

/-- `PerformanceMonitor.notifyCallbacks`: call every subscriber, in
registration order, with `(this.fps, this.performanceLevel,
this.getConstraints())`, catching and logging any exception per subscriber. -/
def notifyCallbacks (callbacks : List Subscriber) (fps : ℤ) (level : Level)
    (bundle : TierConstraintBundle) : List NotifyOutcome :=
  callbacks.map fun callback => runSubscriber callback fps level bundle

/-- Monitor state together with the subscriber list
(`this.callbacks`, appended to by `onPerformanceChange`). -/
structure MonitorWithCallbacks where
  core : MonitorState
  callbacks : List Subscriber

/-- One full window close of the monitoring `tick`: store the fps sample, run
`adjustPerformanceLevel` (which enforces constraints on a tier change), then
`notifyCallbacks` — unconditionally, whether or not the tier changed.
Returns the new monitor state and the per-subscriber outcomes. -/
def windowClose (m : MonitorWithCallbacks) (sample : ℤ) :
    MonitorWithCallbacks × List NotifyOutcome :=
  let st1 := { m.core with fps := sample }
  let st2 := (adjustPerformanceLevel st1).1
  (⟨st2, m.callbacks⟩,
   notifyCallbacks m.callbacks st2.fps st2.performanceLevel
     (getConstraints st2.performanceLevel))

/-- One entry of `this.history` (pushed by `updateHistory`). -/
structure HistEntry where
  fps : ℤ
  timestampMs : ℤ
  performanceLevel : Level
deriving DecidableEq, Repr

/-- JavaScript `Math.round`: round half toward positive infinity. -/
def jsRound (q : ℚ) : ℤ := ⌊q + 1/2⌋

/-- The record returned by `PerformanceMonitor.getMetrics`. -/
structure Metrics where
  currentFPS : ℤ
  performanceLevel : Level
  averageFPS : ℤ
  minFPS : ℤ
  maxFPS : ℤ
  dataPoints : Nat
deriving DecidableEq, Repr

/-- `PerformanceMonitor.getMetrics`, reading `this.fps`,
`this.performanceLevel` and `this.history`.  The `history.length > 0`
ternaries guard the mean and the `Math.min(...)/Math.max(...)` spreads; on an
empty history every aggregate falls back to the current fps. -/
def getMetrics (fps : ℤ) (level : Level) (history : List HistEntry) : Metrics :=
  { currentFPS := fps
    performanceLevel := level
    averageFPS :=
      if 0 < history.length then
        jsRound ((((history.map HistEntry.fps).sum : ℤ) : ℚ) / (history.length : ℚ))
      else fps
    minFPS :=
      match history with
      | [] => fps
      | e :: rest => (rest.map HistEntry.fps).foldl min e.fps
    maxFPS :=
      match history with
      | [] => fps
      | e :: rest => (rest.map HistEntry.fps).foldl max e.fps
    dataPoints := history.length }

/-- An animation scheduled on the timeline by `safeAnimate`: the filtered
property set and the floored duration. -/
structure ScheduledTween where
  props : List (String × PropVal)
  duration : ℚ
deriving DecidableEq, Repr

/-- `GPUOnlyAnimationBuilder.safeAnimate`, acting on `this.animationCount`:
filter the properties, drop the request (returning the count unchanged and
scheduling nothing) when the count has reached
`MAX_CONCURRENT_ANIMATIONS`, otherwise increment the count and schedule the
tween with the duration floored at `MIN_ANIMATION_DURATION`. -/
def safeAnimate (animationCount : Nat) (properties : List (String × PropVal))
    (duration : ℚ) : Nat × Option ScheduledTween :=
  let gpuProperties := filterGPUProperties properties
  if MAX_CONCURRENT_ANIMATIONS ≤ animationCount then
    (animationCount, none)
  else
    (animationCount + 1,
     some { props := gpuProperties,
            duration := max duration MIN_ANIMATION_DURATION })

/-- The `onComplete` callback installed by `safeAnimate`: decrement
`this.animationCount` by one. -/
def onCompleteAnimation (animationCount : Nat) : Nat := animationCount - 1

/-- An event in the life of a `GPUOnlyAnimationBuilder`: a `safeAnimate`
request, or the completion callback of a previously accepted animation. -/
inductive AnimEvent where
  | submit (properties : List (String × PropVal)) (duration : ℚ)
  | complete

/-- Run a sequence of submissions and completions against the animation
count. -/
def animRun (animationCount : Nat) : List AnimEvent → Nat
  | [] => animationCount
  | AnimEvent.submit props d :: rest =>
    animRun (safeAnimate animationCount props d).1 rest
  | AnimEvent.complete :: rest =>
    animRun (onCompleteAnimation animationCount) rest

/-- The amended C2 formulas: as `validateParametersClaimC2`, but the default
is substituted whenever the requested field is absent OR equal to `0`
(JavaScript `||` treats a present `0` as falsy). -/
def validateParametersAmendedC2 (params : ParamsIn) : ParamsIn :=
  { timing :=
      params.timing.map fun t =>
        { maxSegments :=
            some (min (match t.maxSegments with
                       | none => 4
                       | some x => if x = 0 then 4 else x) 4)
          organicVariation :=
            some (min (match t.organicVariation with
                       | none => 3/10
                       | some x => if x = 0 then 3/10 else x) (1/2)) }
    secondaryAction :=
      params.secondaryAction.map fun s =>
        { jiggleIntensity :=
            some (min (match s.jiggleIntensity with
                       | none => 2
                       | some x => if x = 0 then 2 else x) 3)
          maxJiggles :=
            some (min (match s.maxJiggles with
                       | none => 3
                       | some x => if x = 0 then 3 else x) 5) }
    squashAndStretch :=
      params.squashAndStretch.map fun q =>
        { squashAmount :=
            some (max (match q.squashAmount with
                       | none => 9/10
                       | some x => if x = 0 then 9/10 else x) (7/10))
          stretchAmount :=
            some (min (match q.stretchAmount with
                       | none => 11/10
                       | some x => if x = 0 then 11/10 else x) (13/10)) } }

/-- Membership form of the allow-list in the C7 claim: a key passes the
filter exactly when it is a GPU-only property, one of the metadata keys, or
the `attr` bag with only layout-safe SVG attribute sub-keys. -/
def allowedPropertySpec (k : String) (v : PropVal) : Prop :=
  k ∈ GPU_ONLY_PROPERTIES
    ∨ k ∈ ["duration", "ease", "delay"]
    ∨ (k = "attr" ∧ ∀ a ∈ jsKeys v, a ∈ ["width", "height", "d", "transform", "opacity"])

/-! ## Helper lemmas -/

lemma jsOr_ne_zero {d : ℚ} (hd : d ≠ 0) (x : Option ℚ) : jsOr x d ≠ 0 := by
  cases x with
  | none => exact hd
  | some v =>
    by_cases hv : v = 0
    · subst hv
      simp only [jsOr, if_true, eq_self_iff_true]
      exact hd
    · simp only [jsOr, if_neg hv]
      exact hv

lemma jsOr_some_of_ne_zero {v : ℚ} (hv : v ≠ 0) (d : ℚ) : jsOr (some v) d = v := by
  simp [jsOr, hv]

lemma min_ne_zero {a b : ℚ} (ha : a ≠ 0) (hb : b ≠ 0) : min a b ≠ 0 := by
  rcases min_choice a b with h | h <;> rw [h] <;> assumption

lemma adjustPerformanceLevel_fps (st : MonitorState) :
    (adjustPerformanceLevel st).1.fps = st.fps := by
  by_cases h : st.performanceLevel = classifyFps st.fps <;>
    simp [adjustPerformanceLevel, h]

lemma applyLowClamp_of_isClamped {e : EngineParams} (h : isClamped e) :
    applyLowClamp e = e := by
  obtain ⟨h1, h2, h3, h4⟩ := h
  cases e with
  | mk t sq a f s =>
    cases t
    cases sq
    cases s
    simp_all [applyLowClamp]

lemma monitorStep_engine_of_clamped {st : MonitorState} {e : EngineParams}
    (he : st.engine = some e) (hc : isClamped e) (s : ℤ) :
    ((monitorStep st s).1).engine = some e := by
  by_cases h : st.performanceLevel = classifyFps s
  · simp [monitorStep, adjustPerformanceLevel, h, he]
  · by_cases hl : classifyFps s = Level.low
    · simp only [monitorStep, adjustPerformanceLevel, enforceConstraints, h, hl, he,
        applyLowClamp_of_isClamped hc, if_true, if_false, eq_self_iff_true]
      split <;> rfl
    · simp [monitorStep, adjustPerformanceLevel, enforceConstraints, h, hl, he]

/-! ## Claims -/

/-- Claim C1: feeding the fps samples `[58,58,58,44,44,30,52,58]` (one per window)
into the monitor starting from tier High yields the tier sequence
`[High,High,High,Low,Low,Low,Medium,High]`; `enforceConstraints` is invoked
exactly at indices 3, 6 and 7 (the transition ticks) and at no steady-state
tick; the Low clamp body runs only at index 3. -/
theorem c1_end_to_end_scenario :
    (runTrace initialMonitorState [58, 58, 58, 44, 44, 30, 52, 58]).map TickInfo.level
      = [Level.high, Level.high, Level.high, Level.low, Level.low, Level.low,
         Level.medium, Level.high]
    ∧ (runTrace initialMonitorState [58, 58, 58, 44, 44, 30, 52, 58]).map TickInfo.enforced
      = [false, false, false, true, false, false, true, true]
    ∧ (runTrace initialMonitorState [58, 58, 58, 44, 44, 30, 52, 58]).map TickInfo.clamped
      = [false, false, false, true, false, false, false, false] := by
  decide

/-- Claim C4: `enforceConstraints` runs exactly on a tier transition; on a
transition to Medium or High it leaves the engine's parameter state
unchanged; on a transition to Low it overwrites exactly the four fields
`timing.maxSegments = 2`, `secondaryAction.jiggleIntensity = 0`,
`timing.organicVariation = 0.1`, `squashAndStretch.enabled = false` and
preserves every other parameter field. -/
theorem c4_enforcer_frame_effect :
    (∀ st : MonitorState,
      (adjustPerformanceLevel st).2 = true ↔ st.performanceLevel ≠ classifyFps st.fps)
    ∧ (∀ eng, enforceConstraints Level.medium eng = eng)
    ∧ (∀ eng, enforceConstraints Level.high eng = eng)
    ∧ (∀ e, enforceConstraints Level.low (some e) = some (applyLowClamp e))
    ∧ (∀ e : EngineParams,
        (applyLowClamp e).timing.maxSegments = some 2
        ∧ (applyLowClamp e).secondaryAction.jiggleIntensity = 0
        ∧ (applyLowClamp e).timing.organicVariation = some (1/10)
        ∧ (applyLowClamp e).squashAndStretch.enabled = false
        ∧ (applyLowClamp e).timing.baseDuration = e.timing.baseDuration
        ∧ (applyLowClamp e).timing.staggerDelay = e.timing.staggerDelay
        ∧ (applyLowClamp e).secondaryAction.enabled = e.secondaryAction.enabled
        ∧ (applyLowClamp e).secondaryAction.maxJiggles = e.secondaryAction.maxJiggles
        ∧ (applyLowClamp e).squashAndStretch.squashAmount = e.squashAndStretch.squashAmount
        ∧ (applyLowClamp e).squashAndStretch.stretchAmount = e.squashAndStretch.stretchAmount
        ∧ (applyLowClamp e).squashAndStretch.squashDuration = e.squashAndStretch.squashDuration
        ∧ (applyLowClamp e).anticipation = e.anticipation
        ∧ (applyLowClamp e).followThrough = e.followThrough) := by
  refine ⟨?_, ?_, ?_, ?_, ?_⟩
  · intro st
    by_cases h : st.performanceLevel = classifyFps st.fps <;>
      simp [adjustPerformanceLevel, h]
  · intro eng; rfl
  · intro eng; rfl
  · intro e; rfl
  · intro e
    refine ⟨rfl, rfl, rfl, rfl, rfl, rfl, rfl, rfl, rfl, rfl, rfl, rfl, rfl⟩

/-- Claim C5: one-way ratchet.  A window whose sample classifies to Medium or High
never writes the engine's parameter state, and once the parameters hold the
Low-clamp values, every further run of the monitor leaves them exactly at
those values: no tier improvement restores them. -/
theorem c5_one_way_ratchet :
    (∀ (st : MonitorState) (s : ℤ), classifyFps s ≠ Level.low →
        ((monitorStep st s).1).engine = st.engine)
    ∧ (∀ (st : MonitorState) (e : EngineParams) (samples : List ℤ),
        st.engine = some e → isClamped e →
        (runMonitor st samples).engine = some e) := by
  constructor
  · intro st s hs
    by_cases h : st.performanceLevel = classifyFps s
    · simp [monitorStep, adjustPerformanceLevel, h]
    · simp [monitorStep, adjustPerformanceLevel, enforceConstraints, h, hs]
  · intro st e samples
    induction samples generalizing st with
    | nil => intro he _; simpa [runMonitor] using he
    | cons s rest ih =>
      intro he hc
      have hstep := monitorStep_engine_of_clamped he hc s
      have hrun : runMonitor st (s :: rest) = runMonitor ((monitorStep st s).1) rest := rfl
      rw [hrun]
      exact ih _ hstep hc

/-- Witness for C5 at concrete inputs: a Medium-classified sample leaves the
engine untouched, and a clamped engine stays clamped across a
Low-to-High recovery. -/
theorem c5_one_way_ratchet_witness :
    ((monitorStep initialMonitorState 50).1).engine = initialMonitorState.engine
    ∧ (runMonitor
        { fps := 30, performanceLevel := Level.low,
          engine := some (applyLowClamp defaultAnimationParams) }
        [30, 52, 58, 60]).engine = some (applyLowClamp defaultAnimationParams) :=
  ⟨c5_one_way_ratchet.1 initialMonitorState 50 (by decide),
   c5_one_way_ratchet.2 _ (applyLowClamp defaultAnimationParams) [30, 52, 58, 60]
     rfl ⟨rfl, rfl, rfl, rfl⟩⟩

/-- Claim C2 counterexample: with `secondaryAction.jiggleIntensity` present and
equal to `0`, `validateParameters` (which uses JavaScript `||`) substitutes
the default `2`, while the claim's nullish formulas predict `0`; the claim's
formula record differs from the code's output at this input. -/
theorem c2_counterexample :
    validateParameters ⟨none, some ⟨some 0, some 3⟩, none⟩
      ≠ validateParametersClaimC2 ⟨none, some ⟨some 0, some 3⟩, none⟩
    ∧ (validateParameters ⟨none, some ⟨some 0, some 3⟩, none⟩).secondaryAction
      = some ⟨some 2, some 3⟩
    ∧ (validateParametersClaimC2 ⟨none, some ⟨some 0, some 3⟩, none⟩).secondaryAction
      = some ⟨some 0, some 3⟩ := by
  refine ⟨?_, ?_, ?_⟩
  · intro h
    have h2 := congrArg ParamsIn.secondaryAction h
    simp [validateParameters, validateParametersClaimC2, validateSecondaryGroup, jsOr] at h2
    norm_num at h2
  · simp [validateParameters, validateSecondaryGroup, jsOr]
    norm_num
  · simp [validateParametersClaimC2]
    norm_num

/-- Claim C2 amended: for every input record, `validateParameters` returns exactly
the documented `min`/`max` formulas, with the default substituted when the
requested field is absent or equal to `0` (JavaScript falsy), and no error is
raised (the function is total and never rejects out-of-range input). -/
theorem c2_validate_formulas_amended :
    ∀ params : ParamsIn, validateParameters params = validateParametersAmendedC2 params := by
  intro params
  rfl

lemma clampMinOr_idem (x : Option ℚ) (d c : ℚ) (hd : d ≠ 0) (hc : c ≠ 0) :
    min (jsOr (some (min (jsOr x d) c)) d) c = min (jsOr x d) c := by
  have hne : min (jsOr x d) c ≠ 0 := min_ne_zero (jsOr_ne_zero hd x) hc
  rw [jsOr_some_of_ne_zero hne]
  exact min_eq_left (min_le_right _ _)

lemma clampMaxOr_idem (x : Option ℚ) (d c : ℚ) (hc : 0 < c) :
    max (jsOr (some (max (jsOr x d) c)) d) c = max (jsOr x d) c := by
  have hne : max (jsOr x d) c ≠ 0 :=
    ne_of_gt (lt_of_lt_of_le hc (le_max_right _ _))
  rw [jsOr_some_of_ne_zero hne]
  exact max_eq_left (le_max_right _ _)

lemma validateTimingGroup_idem (t : TimingIn) :
    validateTimingGroup (validateTimingGroup t) = validateTimingGroup t := by
  simp only [validateTimingGroup, MAX_SEGMENTS_PER_YEAR, MAX_TIMING_VARIATION,
    TimingIn.mk.injEq]
  exact ⟨congrArg some (clampMinOr_idem _ 4 4 (by norm_num) (by norm_num)),
         congrArg some (clampMinOr_idem _ (3/10) (1/2) (by norm_num) (by norm_num))⟩

lemma validateSecondaryGroup_idem (s : SecondaryIn) :
    validateSecondaryGroup (validateSecondaryGroup s) = validateSecondaryGroup s := by
  simp only [validateSecondaryGroup, SecondaryIn.mk.injEq]
  exact ⟨congrArg some (clampMinOr_idem _ 2 3 (by norm_num) (by norm_num)),
         congrArg some (clampMinOr_idem _ 3 5 (by norm_num) (by norm_num))⟩

lemma validateSquashGroup_idem (q : SquashIn) :
    validateSquashGroup (validateSquashGroup q) = validateSquashGroup q := by
  simp only [validateSquashGroup, SquashIn.mk.injEq]
  exact ⟨congrArg some (clampMaxOr_idem _ (9/10) (7/10) (by norm_num)),
         congrArg some (clampMinOr_idem _ (11/10) (13/10) (by norm_num) (by norm_num))⟩

/-- Claim C8: `validateParameters` is idempotent — applying it to its own output is
a no-op — and its output never exceeds the documented ceilings
(`maxSegments` 4, `organicVariation` 0.5, `jiggleIntensity` 3, `maxJiggles`
5, `stretchAmount` 1.3) nor falls below the `squashAmount` floor 0.7. -/
theorem c8_validate_idempotent_and_bounded :
    (∀ p, validateParameters (validateParameters p) = validateParameters p)
    ∧ (∀ p t, (validateParameters p).timing = some t →
        (∃ s, t.maxSegments = some s ∧ s ≤ 4)
        ∧ (∃ v, t.organicVariation = some v ∧ v ≤ 1/2))
    ∧ (∀ p s, (validateParameters p).secondaryAction = some s →
        (∃ j, s.jiggleIntensity = some j ∧ j ≤ 3)
        ∧ (∃ m, s.maxJiggles = some m ∧ m ≤ 5))
    ∧ (∀ p q, (validateParameters p).squashAndStretch = some q →
        (∃ a, q.squashAmount = some a ∧ 7/10 ≤ a)
        ∧ (∃ b, q.stretchAmount = some b ∧ b ≤ 13/10)) := by
  refine ⟨?_, ?_, ?_, ?_⟩
  · intro p
    cases p with
    | mk ti se sq =>
      simp only [validateParameters, ParamsIn.mk.injEq]
      refine ⟨?_, ?_, ?_⟩
      · cases ti with
        | none => rfl
        | some t => exact congrArg some (validateTimingGroup_idem t)
      · cases se with
        | none => rfl
        | some s => exact congrArg some (validateSecondaryGroup_idem s)
      · cases sq with
        | none => rfl
        | some q => exact congrArg some (validateSquashGroup_idem q)
  · intro p t h
    simp only [validateParameters] at h
    obtain ⟨t0, _, rfl⟩ := Option.map_eq_some'.1 h
    exact ⟨⟨_, rfl, min_le_right _ _⟩, ⟨_, rfl, min_le_right _ _⟩⟩
  · intro p s h
    simp only [validateParameters] at h
    obtain ⟨s0, _, rfl⟩ := Option.map_eq_some'.1 h
    exact ⟨⟨_, rfl, min_le_right _ _⟩, ⟨_, rfl, min_le_right _ _⟩⟩
  · intro p q h
    simp only [validateParameters] at h
    obtain ⟨q0, _, rfl⟩ := Option.map_eq_some'.1 h
    exact ⟨⟨_, rfl, le_max_right _ _⟩, ⟨_, rfl, min_le_right _ _⟩⟩

/-- Witness for C8 at a concrete input: the all-defaults record is a fixed
point of `validateParameters`, and each bound holds on its output. -/
theorem c8_validate_idempotent_and_bounded_witness :
    validateParameters (validateParameters ⟨some ⟨none, none⟩, some ⟨none, none⟩, some ⟨none, none⟩⟩)
      = validateParameters ⟨some ⟨none, none⟩, some ⟨none, none⟩, some ⟨none, none⟩⟩
    ∧ ((∃ s, (TimingIn.mk (some 4) (some (3/10))).maxSegments = some s ∧ s ≤ 4)
       ∧ (∃ v, (TimingIn.mk (some 4) (some (3/10))).organicVariation = some v ∧ v ≤ 1/2))
    ∧ ((∃ j, (SecondaryIn.mk (some 2) (some 3)).jiggleIntensity = some j ∧ j ≤ 3)
       ∧ (∃ m, (SecondaryIn.mk (some 2) (some 3)).maxJiggles = some m ∧ m ≤ 5))
    ∧ ((∃ a, (SquashIn.mk (some (9/10)) (some (11/10))).squashAmount = some a ∧ 7/10 ≤ a)
       ∧ (∃ b, (SquashIn.mk (some (9/10)) (some (11/10))).stretchAmount = some b ∧ b ≤ 13/10)) :=
  ⟨c8_validate_idempotent_and_bounded.1 _,
   c8_validate_idempotent_and_bounded.2.1 ⟨some ⟨none, none⟩, some ⟨none, none⟩, some ⟨none, none⟩⟩ _
     (by norm_num [validateParameters, validateTimingGroup, jsOr,
        MAX_SEGMENTS_PER_YEAR, MAX_TIMING_VARIATION]),
   c8_validate_idempotent_and_bounded.2.2.1 ⟨some ⟨none, none⟩, some ⟨none, none⟩, some ⟨none, none⟩⟩ _
     (by norm_num [validateParameters, validateSecondaryGroup, jsOr]),
   c8_validate_idempotent_and_bounded.2.2.2 ⟨some ⟨none, none⟩, some ⟨none, none⟩, some ⟨none, none⟩⟩ _
     (by norm_num [validateParameters, validateSquashGroup, jsOr])⟩

lemma animRun_le_cap (events : List AnimEvent) :
    ∀ c, c ≤ MAX_CONCURRENT_ANIMATIONS → animRun c events ≤ MAX_CONCURRENT_ANIMATIONS := by
  induction events with
  | nil => intro c hc; simpa [animRun] using hc
  | cons e rest ih =>
    intro c hc
    cases e with
    | submit props d =>
      by_cases h : MAX_CONCURRENT_ANIMATIONS ≤ c
      · simp only [animRun, safeAnimate, if_pos h]
        exact ih c hc
      · simp only [animRun, safeAnimate, if_neg h]
        exact ih (c + 1) (Nat.succ_le_of_lt (Nat.lt_of_not_le h))
    | complete =>
      simp only [animRun, onCompleteAnimation]
      exact ih (c - 1) (le_trans (Nat.sub_le c 1) hc)

/-- Claim C3: the concurrent-animation count never exceeds
`MAX_CONCURRENT_ANIMATIONS` over any sequence of submissions and completions;
a request submitted at the cap is dropped with no count change and nothing
scheduled; an accepted request increments the count by exactly one and
schedules exactly one tween; a completion callback decrements the count by
exactly one, freeing exactly one slot. -/
theorem c3_concurrency_cap :
    (∀ events, animRun 0 events ≤ MAX_CONCURRENT_ANIMATIONS)
    ∧ (∀ props d, safeAnimate MAX_CONCURRENT_ANIMATIONS props d
        = (MAX_CONCURRENT_ANIMATIONS, none))
    ∧ (∀ c props d, c < MAX_CONCURRENT_ANIMATIONS →
        (safeAnimate c props d).1 = c + 1
        ∧ ((safeAnimate c props d).2).isSome = true)
    ∧ (∀ c, onCompleteAnimation (c + 1) = c) := by
  refine ⟨?_, ?_, ?_, ?_⟩
  · intro events
    exact animRun_le_cap events 0 (Nat.zero_le _)
  · intro props d
    simp [safeAnimate]
  · intro c props d h
    constructor <;> simp [safeAnimate, Nat.not_le_of_lt h]
  · intro c
    simp [onCompleteAnimation]

/-- Witness for C3 at concrete inputs: one accepted submission then its
completion keeps the count within the cap, and a request at count 3 is
accepted with the count rising to 4. -/
theorem c3_concurrency_cap_witness :
    animRun 0 [AnimEvent.submit [] 1, AnimEvent.complete] ≤ MAX_CONCURRENT_ANIMATIONS
    ∧ (safeAnimate 3 [] 1).1 = 3 + 1
    ∧ ((safeAnimate 3 [] 1).2).isSome = true :=
  ⟨c3_concurrency_cap.1 [AnimEvent.submit [] 1, AnimEvent.complete],
   (c3_concurrency_cap.2.2.1 3 [] 1 (by decide)).1,
   (c3_concurrency_cap.2.2.1 3 [] 1 (by decide)).2⟩

/-- Claim C7: every entry of `filterGPUProperties`' output is an entry of the input
(keys keep their original values), and its key is GPU-only, metadata
(`duration`/`ease`/`delay`), or `attr` with only safe SVG attribute sub-keys;
a blocked entry is simply omitted, never thrown. -/
theorem c7_filter_subset_and_allowlist :
    ∀ props k v, (k, v) ∈ filterGPUProperties props →
      (k, v) ∈ props ∧ allowedPropertySpec k v := by
  intro props k v h
  rw [filterGPUProperties, List.mem_filter] at h
  refine ⟨h.1, ?_⟩
  have h2 := h.2
  simp only [isAllowedProperty, Bool.or_eq_true, Bool.and_eq_true, beq_iff_eq] at h2
  rcases h2 with ((((hga | ⟨hk, hsafe⟩) | hdur) | hease) | hdel)
  · exact Or.inl (List.mem_of_elem_eq_true hga)
  · refine Or.inr (Or.inr ⟨hk, ?_⟩)
    intro a ha
    have hall := List.all_eq_true.1 hsafe a ha
    exact List.mem_of_elem_eq_true hall
  · exact Or.inr (Or.inl (by simp [hdur]))
  · exact Or.inr (Or.inl (by simp [hease]))
  · exact Or.inr (Or.inl (by simp [hdel]))

/-- Witness for C7 at a concrete input: `opacity` survives the filter of a
map that also contains the blocked key `left`, and it satisfies the
allow-list. -/
theorem c7_filter_subset_and_allowlist_witness :
    (("opacity", PropVal.prim (Prim.num 1))
        ∈ [("opacity", PropVal.prim (Prim.num 1)), ("left", PropVal.prim (Prim.num 2))])
    ∧ allowedPropertySpec "opacity" (PropVal.prim (Prim.num 1)) :=
  c7_filter_subset_and_allowlist
    [("opacity", PropVal.prim (Prim.num 1)), ("left", PropVal.prim (Prim.num 2))]
    "opacity" (PropVal.prim (Prim.num 1)) (by decide)

/-- Claim C9: an empty `attr` bag vacuously satisfies `isGPUSafeAttribute` (the
`every` quantifies over no sub-keys), so a property map entry
`attr: {}` always passes `filterGPUProperties`. -/
theorem c9_empty_attr_bag_passes :
    isGPUSafeAttribute (PropVal.obj []) = true
    ∧ ∀ props, ("attr", PropVal.obj []) ∈ props →
        ("attr", PropVal.obj []) ∈ filterGPUProperties props := by
  refine ⟨rfl, ?_⟩
  intro props h
  rw [filterGPUProperties, List.mem_filter]
  exact ⟨h, by decide⟩

/-- Witness for C9 at a concrete input. -/
theorem c9_empty_attr_bag_passes_witness :
    ("attr", PropVal.obj []) ∈ filterGPUProperties
      [("attr", PropVal.obj []), ("top", PropVal.prim (Prim.num 1))] :=
  c9_empty_attr_bag_passes.2
    [("attr", PropVal.obj []), ("top", PropVal.prim (Prim.num 1))] (by decide)

lemma foldl_min_le_init (l : List ℤ) (a : ℤ) : l.foldl min a ≤ a := by
  induction l generalizing a with
  | nil => simp
  | cons x xs ih =>
    simp only [List.foldl_cons]
    exact le_trans (ih (min a x)) (min_le_left a x)

lemma foldl_min_le_mem (l : List ℤ) (a : ℤ) : ∀ x ∈ l, l.foldl min a ≤ x := by
  induction l generalizing a with
  | nil => intro x hx; simp at hx
  | cons y ys ih =>
    intro x hx
    simp only [List.foldl_cons]
    rcases List.mem_cons.1 hx with rfl | hx2
    · exact le_trans (foldl_min_le_init ys (min a x)) (min_le_right a x)
    · exact ih (min a y) x hx2

lemma foldl_min_eq_or_mem (l : List ℤ) (a : ℤ) :
    l.foldl min a = a ∨ l.foldl min a ∈ l := by
  induction l generalizing a with
  | nil => exact Or.inl rfl
  | cons y ys ih =>
    simp only [List.foldl_cons]
    rcases ih (min a y) with h | h
    · rcases min_choice a y with hm | hm
      · exact Or.inl (h.trans hm)
      · exact Or.inr (by rw [h, hm]; exact List.mem_cons_self y ys)
    · exact Or.inr (List.mem_cons_of_mem y h)

lemma foldl_max_ge_init (l : List ℤ) (a : ℤ) : a ≤ l.foldl max a := by
  induction l generalizing a with
  | nil => simp
  | cons x xs ih =>
    simp only [List.foldl_cons]
    exact le_trans (le_max_left a x) (ih (max a x))

lemma foldl_max_ge_mem (l : List ℤ) (a : ℤ) : ∀ x ∈ l, x ≤ l.foldl max a := by
  induction l generalizing a with
  | nil => intro x hx; simp at hx
  | cons y ys ih =>
    intro x hx
    simp only [List.foldl_cons]
    rcases List.mem_cons.1 hx with rfl | hx2
    · exact le_trans (le_max_right a x) (foldl_max_ge_init ys (max a x))
    · exact ih (max a y) x hx2

lemma foldl_max_eq_or_mem (l : List ℤ) (a : ℤ) :
    l.foldl max a = a ∨ l.foldl max a ∈ l := by
  induction l generalizing a with
  | nil => exact Or.inl rfl
  | cons y ys ih =>
    simp only [List.foldl_cons]
    rcases ih (max a y) with h | h
    · rcases max_choice a y with hm | hm
      · exact Or.inl (h.trans hm)
      · exact Or.inr (by rw [h, hm]; exact List.mem_cons_self y ys)
    · exact Or.inr (List.mem_cons_of_mem y h)

/-- Claim C10: `getMetrics` is total on an empty history — it returns the current
fps for average/min/max and 0 data points, dividing by nothing and folding
over nothing — and on a non-empty history the average is the rounded mean
while min/max bound and belong to the recorded fps values. -/
theorem c10_metrics_total_and_correct :
    (∀ fps lvl, getMetrics fps lvl [] =
      { currentFPS := fps, performanceLevel := lvl, averageFPS := fps,
        minFPS := fps, maxFPS := fps, dataPoints := 0 })
    ∧ (∀ fps lvl (e : HistEntry) (rest : List HistEntry),
        (getMetrics fps lvl (e :: rest)).averageFPS
          = jsRound ((((e :: rest).map HistEntry.fps).sum : ℚ) / ((e :: rest).length : ℚ))
        ∧ (getMetrics fps lvl (e :: rest)).dataPoints = (e :: rest).length
        ∧ (∀ x ∈ e :: rest,
            (getMetrics fps lvl (e :: rest)).minFPS ≤ x.fps
            ∧ x.fps ≤ (getMetrics fps lvl (e :: rest)).maxFPS)
        ∧ (getMetrics fps lvl (e :: rest)).minFPS ∈ (e :: rest).map HistEntry.fps
        ∧ (getMetrics fps lvl (e :: rest)).maxFPS ∈ (e :: rest).map HistEntry.fps) := by
  constructor
  · intro fps lvl
    rfl
  · intro fps lvl e rest
    have hmin : (getMetrics fps lvl (e :: rest)).minFPS
        = (rest.map HistEntry.fps).foldl min e.fps := rfl
    have hmax : (getMetrics fps lvl (e :: rest)).maxFPS
        = (rest.map HistEntry.fps).foldl max e.fps := rfl
    refine ⟨by simp [getMetrics], rfl, ?_, ?_, ?_⟩
    · intro x hx
      rw [hmin, hmax]
      rcases List.mem_cons.1 hx with rfl | hx2
      · exact ⟨foldl_min_le_init _ _, foldl_max_ge_init _ _⟩
      · exact ⟨foldl_min_le_mem _ _ _ (List.mem_map_of_mem HistEntry.fps hx2),
               foldl_max_ge_mem _ _ _ (List.mem_map_of_mem HistEntry.fps hx2)⟩
    · rw [hmin, List.map_cons]
      rcases foldl_min_eq_or_mem (rest.map HistEntry.fps) e.fps with h | h
      · rw [h]; exact List.mem_cons_self _ _
      · exact List.mem_cons_of_mem _ h
    · rw [hmax, List.map_cons]
      rcases foldl_max_eq_or_mem (rest.map HistEntry.fps) e.fps with h | h
      · rw [h]; exact List.mem_cons_self _ _
      · exact List.mem_cons_of_mem _ h

/-- Witness for C10 at concrete inputs: empty history yields the fallback
record, and on a two-entry history the recorded extremes bound the entries. -/
theorem c10_metrics_total_and_correct_witness :
    getMetrics 60 Level.high [] =
      { currentFPS := 60, performanceLevel := Level.high, averageFPS := 60,
        minFPS := 60, maxFPS := 60, dataPoints := 0 }
    ∧ ((getMetrics 60 Level.high [⟨50, 0, Level.high⟩, ⟨56, 1000, Level.high⟩]).minFPS
        ≤ (HistEntry.mk 50 0 Level.high).fps
      ∧ (HistEntry.mk 50 0 Level.high).fps
        ≤ (getMetrics 60 Level.high [⟨50, 0, Level.high⟩, ⟨56, 1000, Level.high⟩]).maxFPS) :=
  ⟨c10_metrics_total_and_correct.1 60 Level.high,
   (c10_metrics_total_and_correct.2 60 Level.high ⟨50, 0, Level.high⟩
      [⟨56, 1000, Level.high⟩]).2.2.1 ⟨50, 0, Level.high⟩ (by decide)⟩

/-- Claim C6: on every window close — whether or not the tier changed — all
registered subscribers are called in registration order with the same
`(fps, tier, bundle)` arguments; a throwing subscriber's exception is caught
and logged, the subscriber list is unchanged (nobody is removed), and the
subscribers after a throwing one still receive the same call. -/
theorem c6_notify_order_and_isolation :
    ∀ (core : MonitorState) (sample : ℤ) (cbs1 : List Subscriber) (cb : Subscriber)
      (cbs2 : List Subscriber),
      ((windowClose ⟨core, cbs1 ++ cb :: cbs2⟩ sample).1).callbacks = cbs1 ++ cb :: cbs2
      ∧ (windowClose ⟨core, cbs1 ++ cb :: cbs2⟩ sample).2
          = notifyCallbacks cbs1 sample
              ((adjustPerformanceLevel { core with fps := sample }).1.performanceLevel)
              (getConstraints
                ((adjustPerformanceLevel { core with fps := sample }).1.performanceLevel))
            ++ runSubscriber cb sample
                ((adjustPerformanceLevel { core with fps := sample }).1.performanceLevel)
                (getConstraints
                  ((adjustPerformanceLevel { core with fps := sample }).1.performanceLevel))
              :: notifyCallbacks cbs2 sample
                  ((adjustPerformanceLevel { core with fps := sample }).1.performanceLevel)
                  (getConstraints
                    ((adjustPerformanceLevel { core with fps := sample }).1.performanceLevel))
      ∧ ((windowClose ⟨core, cbs1 ++ cb :: cbs2⟩ sample).2).length
          = cbs1.length + 1 + cbs2.length := by
  intro core sample cbs1 cb cbs2
  refine ⟨rfl, ?_, ?_⟩
  · simp only [windowClose, notifyCallbacks, adjustPerformanceLevel_fps,
      List.map_append, List.map_cons]
  · simp only [windowClose, notifyCallbacks, List.length_map, List.length_append,
      List.length_cons]
    omega
